import Mathlib

/-!
Shallow embedding of the orchestration workflow in src/app.py: a business-card
scanner that extracts fields from an image via a vision model
(get_gemini_response), archives the image (upload_image_to_drive), and appends
a row to a spreadsheet (save_to_google_sheets), sequenced by the module-level
submit handler.

Modelling conventions:
- The parsed JSON object returned by the extraction service is modelled as an
  association list from String keys to String values (CardDict); Python
  dict.get(k, default) is dictGet.
- Python substring containment (the `in` operator on strings) is strOccurs.
- External effects are modelled by environment records fixing what each
  underlying service call would return; each wrapper function is a pure
  function of its inputs and that environment.
- Python truthiness: None and the empty dict and the empty string are falsy.
-/

/-- Image bytes; the orchestrator only threads them through to the clients. -/
abbrev ImageBytes := List Nat

/-- The parsed JSON object from the extraction service: a string-keyed dict
with string values, possibly missing any of the eight expected keys. -/
abbrev CardDict := List (String × String)

/-- Python dict.get(k, dv): the value at k when present, dv otherwise. -/
def dictGet (data : CardDict) (k : String) (dv : String) : String :=
  match data.lookup k with
  | some v => v
  | none => dv

/-- Does pat occur at the head of the character list? -/
def charsStartWith : List Char → List Char → Bool
  | [], _ => true
  | _ :: _, [] => false
  | p :: ps, c :: cs => p == c && charsStartWith ps cs

/-- Does pat occur anywhere in the character list? -/
def charsOccur (pat : List Char) : List Char → Bool
  | [] => charsStartWith pat []
  | c :: cs => charsStartWith pat (c :: cs) || charsOccur pat cs

/-- Python substring test: pat in s. -/
def strOccurs (pat s : String) : Bool :=
  charsOccur pat.toList s.toList

/-- What the underlying Gemini call does: either the response body parses to a
JSON object, or an exception with a message is raised anywhere in the try
block (network, auth, malformed JSON, rate limit). -/
inductive GeminiCallResult where
  | success (parsed : CardDict)
  | error (msg : String)
deriving DecidableEq

/-- The value get_gemini_response returns to the handler: the sentinel string
QUOTA_EXCEEDED, the parsed dict, or None. -/
inductive ExtractionResult where
  | quotaExceeded
  | record (d : CardDict)
  | failure
deriving DecidableEq

/-- src/app.py lines 29-59: return the parsed JSON on success; on an exception
whose message contains 429 or ResourceExhausted return the quota sentinel;
on any other exception return None. -/
def get_gemini_response (_image_bytes : ImageBytes) (call : GeminiCallResult) :
    ExtractionResult :=
  match call with
  | GeminiCallResult.success parsed => ExtractionResult.record parsed
  | GeminiCallResult.error msg =>
      if strOccurs "429" msg || strOccurs "ResourceExhausted" msg then
        ExtractionResult.quotaExceeded
      else
        ExtractionResult.failure

/-- What the underlying Drive call does: the create request succeeds and the
response carries an optional webViewLink field, or an exception is raised. -/
inductive DriveCallResult where
  | uploaded (webViewLink : Option String)
  | error (msg : String)
deriving DecidableEq

/-- src/app.py lines 62-86: return file.get of webViewLink on success, None on
any exception. -/
def upload_image_to_drive (_image_bytes : ImageBytes) (_file_name : String)
    (call : DriveCallResult) : Option String :=
  match call with
  | DriveCallResult.uploaded link => link
  | DriveCallResult.error _ => none

/-- One cell of the appended spreadsheet row: the index is a number, every
other cell is a string. -/
inductive Cell where
  | num (n : Nat)
  | str (s : String)
deriving DecidableEq

/-- The append_row call performed on the sheet: the row and the
value_input_option flag passed to the service. -/
structure AppendCall where
  row : List Cell
  value_input_option : String
deriving DecidableEq

/-- Environment of one save_to_google_sheets call: the rows get_all_values
returns, the formatted timestamp datetime.now produces at write time, and
whether the interaction completes without an exception. -/
structure SheetsEnv where
  existing_data : List (List String)
  upload_time : String
  write_ok : Bool
deriving DecidableEq

/-- src/app.py line 98: next_index is the current row count, or 1 when the
sheet is empty. -/
def next_index (existing_data : List (List String)) : Nat :=
  if existing_data.length > 0 then existing_data.length else 1

/-- src/app.py line 103: the HYPERLINK formula string embedding the link with
the fixed display text. -/
def hyperlink_formula (drive_link : String) : String :=
  "=HYPERLINK(\"" ++ drive_link ++ "\", \"名片連結\")"

/-- src/app.py lines 102-105: if drive_link is truthy and contains http,
format the hyperlink formula; otherwise the literal upload-failed marker. -/
def final_link (drive_link : Option String) : String :=
  match drive_link with
  | some l =>
      if (l != "") && strOccurs "http" l then hyperlink_formula l else "上傳失敗"
  | none => "上傳失敗"

/-- src/app.py lines 89-126: build the row [next_index, the eight card fields
via dict.get with empty-string default, note, upload_time, final_link] and
append it with value_input_option USER_ENTERED; any exception yields False.
Returns the performed append call on True, none on False. -/
def save_to_google_sheets (env : SheetsEnv) (data : CardDict) (note : String)
    (drive_link : Option String) : Option AppendCall :=
  if env.write_ok then
    some (AppendCall.mk
      [Cell.num (next_index env.existing_data),
       Cell.str (dictGet data "chinese_name" ""),
       Cell.str (dictGet data "english_name" ""),
       Cell.str (dictGet data "department" ""),
       Cell.str (dictGet data "title" ""),
       Cell.str (dictGet data "mobile" ""),
       Cell.str (dictGet data "phone" ""),
       Cell.str (dictGet data "email" ""),
       Cell.str (dictGet data "address" ""),
       Cell.str note,
       Cell.str env.upload_time,
       Cell.str (final_link drive_link)]
      "USER_ENTERED")
  else none

/-- Terminal outcome of one submission, as surfaced by the handler. -/
inductive Outcome where
  | noImage
  | quotaExceeded
  | extractionFailed
  | archiveFailedStop
  | writeFailed
  | success (file_name : String)
deriving DecidableEq

/-- Observable behaviour of one submission: which clients were invoked, the
append call the ledger performed (when any), and the terminal outcome. -/
structure Trace where
  extraction_called : Bool
  archive_called : Bool
  ledger_called : Bool
  ledger_append : Option AppendCall
  outcome : Outcome
deriving DecidableEq

/-- Environment of one submission: what each underlying service call would
return, and the timestamp used in the generated file name. -/
structure Env where
  gemini : GeminiCallResult
  drive : DriveCallResult
  now_ts : String
  sheets : SheetsEnv
deriving DecidableEq

/-- src/app.py line 174: the generated archive file name, with dict.get
defaulting the Chinese name to the placeholder only when the key is absent. -/
def file_name_of (result : CardDict) (ts : String) : String :=
  "名片_" ++ dictGet result "chinese_name" "未命名" ++ "_" ++ ts ++ ".jpg"

/-- Python truthiness of the optional drive link: None and the empty string
are falsy. -/
def py_truthy_str : Option String → Bool
  | none => false
  | some s => s != ""

/-- src/app.py lines 153-196, the module-level submit handler: stop when no
image; call get_gemini_response; on the quota sentinel report quota; on a
truthy dict upload to Drive, and stop (st.stop) when the upload returns a
falsy link; otherwise write the sheet row and report success or write
failure; on a falsy extraction result report extraction failure. The match
on the record with an emptiness test models the elif-result truthiness
chain of the source. -/
def submit (final_image : Option ImageBytes) (user_note : String) (env : Env) :
    Trace :=
  match final_image with
  | none => Trace.mk false false false none Outcome.noImage
  | some image_bytes =>
    match get_gemini_response image_bytes env.gemini with
    | ExtractionResult.quotaExceeded =>
        Trace.mk true false false none Outcome.quotaExceeded
    | ExtractionResult.record result =>
        if result.isEmpty then
          Trace.mk true false false none Outcome.extractionFailed
        else
          let file_name := file_name_of result env.now_ts
          let drive_link := upload_image_to_drive image_bytes file_name env.drive
          if py_truthy_str drive_link then
            match save_to_google_sheets env.sheets result user_note drive_link with
            | some call =>
                Trace.mk true true true (some call) (Outcome.success file_name)
            | none => Trace.mk true true true none Outcome.writeFailed
          else
            Trace.mk true true false none Outcome.archiveFailedStop
    | ExtractionResult.failure =>
        Trace.mk true false false none Outcome.extractionFailed

/-- Claim C7: for all submissions with no image supplied, the workflow
terminates in the no-image state without invoking any of the three external
clients: no extraction call, no archive upload, no ledger write. -/
theorem c7_no_image_terminal (user_note : String) (env : Env) :
    submit none user_note env =
      Trace.mk false false false none Outcome.noImage := rfl

/-- Claim C4: index computation in the Ledger Client: for an empty sheet the
appended row index is 1, and for a sheet with N > 0 existing rows it is N,
the row count itself, not N plus one. -/
theorem c4_next_index_convention (rows : List (List String))
    (h : 0 < rows.length) :
    next_index ([] : List (List String)) = 1 ∧
    next_index rows = rows.length ∧ next_index rows ≠ rows.length + 1 := by
  refine ⟨rfl, ?_, ?_⟩
  · simp [next_index, h]
  · simp [next_index, h]

/-- Witness for c4_next_index_convention at three existing rows. -/
theorem c4_next_index_convention_witness :
    next_index ([] : List (List String)) = 1 ∧
    next_index [["a"], ["b"], ["c"]] = 3 ∧
    next_index [["a"], ["b"], ["c"]] ≠ 3 + 1 :=
  c4_next_index_convention [["a"], ["b"], ["c"]] (by decide)

/-- Claim C2: when the extraction call raises an exception whose message
contains 429 or ResourceExhausted, the Extraction Client returns the quota
sentinel, the workflow outcome is quota exceeded, and neither the Archive
Client nor the Ledger Client is invoked. -/
theorem c2_quota_short_circuits (image_bytes : ImageBytes) (user_note : String)
    (env : Env) (msg : String) (hg : env.gemini = GeminiCallResult.error msg)
    (h : strOccurs "429" msg = true ∨ strOccurs "ResourceExhausted" msg = true) :
    get_gemini_response image_bytes env.gemini = ExtractionResult.quotaExceeded ∧
    (submit (some image_bytes) user_note env).outcome = Outcome.quotaExceeded ∧
    (submit (some image_bytes) user_note env).archive_called = false ∧
    (submit (some image_bytes) user_note env).ledger_called = false := by
  have hq : get_gemini_response image_bytes env.gemini =
      ExtractionResult.quotaExceeded := by
    rw [hg]
    unfold get_gemini_response
    rcases h with h | h <;> simp [h]
  refine ⟨hq, ?_, ?_, ?_⟩ <;> simp [submit, hq]

/-- Witness for c2_quota_short_circuits on a message containing 429. -/
theorem c2_quota_short_circuits_witness :
    get_gemini_response []
      (GeminiCallResult.error "Error 429: rate limit exceeded") =
      ExtractionResult.quotaExceeded ∧
    (submit (some []) "note"
      (Env.mk (GeminiCallResult.error "Error 429: rate limit exceeded")
        (DriveCallResult.uploaded (some "https://x"))
        "20250101_120000" (SheetsEnv.mk [] "t" true))).outcome =
      Outcome.quotaExceeded ∧
    (submit (some []) "note"
      (Env.mk (GeminiCallResult.error "Error 429: rate limit exceeded")
        (DriveCallResult.uploaded (some "https://x"))
        "20250101_120000" (SheetsEnv.mk [] "t" true))).archive_called = false ∧
    (submit (some []) "note"
      (Env.mk (GeminiCallResult.error "Error 429: rate limit exceeded")
        (DriveCallResult.uploaded (some "https://x"))
        "20250101_120000" (SheetsEnv.mk [] "t" true))).ledger_called = false :=
  c2_quota_short_circuits [] "note"
    (Env.mk (GeminiCallResult.error "Error 429: rate limit exceeded")
      (DriveCallResult.uploaded (some "https://x"))
      "20250101_120000" (SheetsEnv.mk [] "t" true))
    "Error 429: rate limit exceeded" rfl (Or.inl (by decide))

/-- Claim C5: for every record, note, and archive reference given to the
Ledger Client, the appended row contains exactly the cells [index,
chinese_name, english_name, department, title, mobile, phone, email, address,
note, timestamp, link-or-marker] in that fixed order, and the append passes
value_input_option USER_ENTERED so the service interprets formula syntax. -/
theorem c5_row_fixed_order (env : SheetsEnv) (data : CardDict) (note : String)
    (drive_link : Option String) (hw : env.write_ok = true) :
    save_to_google_sheets env data note drive_link =
      some (AppendCall.mk
        [Cell.num (next_index env.existing_data),
         Cell.str (dictGet data "chinese_name" ""),
         Cell.str (dictGet data "english_name" ""),
         Cell.str (dictGet data "department" ""),
         Cell.str (dictGet data "title" ""),
         Cell.str (dictGet data "mobile" ""),
         Cell.str (dictGet data "phone" ""),
         Cell.str (dictGet data "email" ""),
         Cell.str (dictGet data "address" ""),
         Cell.str note,
         Cell.str env.upload_time,
         Cell.str (final_link drive_link)]
        "USER_ENTERED") := by
  simp [save_to_google_sheets, hw]

/-- Witness for c5_row_fixed_order on a concrete record and link. -/
theorem c5_row_fixed_order_witness :
    save_to_google_sheets (SheetsEnv.mk [["header"]] "2025-01-01 12:00:00" true)
      [("chinese_name", "王小明"), ("email", "a@b.c")] "met at expo"
      (some "https://drive.example/abc") =
      some (AppendCall.mk
        [Cell.num 1, Cell.str "王小明", Cell.str "", Cell.str "", Cell.str "",
         Cell.str "", Cell.str "", Cell.str "a@b.c", Cell.str "",
         Cell.str "met at expo", Cell.str "2025-01-01 12:00:00",
         Cell.str "=HYPERLINK(\"https://drive.example/abc\", \"名片連結\")"]
        "USER_ENTERED") := by
  have h := c5_row_fixed_order
    (SheetsEnv.mk [["header"]] "2025-01-01 12:00:00" true)
    [("chinese_name", "王小明"), ("email", "a@b.c")] "met at expo"
    (some "https://drive.example/abc") rfl
  simpa [next_index, dictGet, final_link, hyperlink_formula, strOccurs,
    charsOccur, charsStartWith] using h

/-- Claim C6: for every archive reference string containing http, the link
cell equals the hyperlink formula embedding that exact reference with the
fixed display text; for every other reference value, absent or without http,
the link cell is the literal upload-failed marker. -/
theorem c6_link_cell (l : String) (env : SheetsEnv) (data : CardDict)
    (note : String) (hw : env.write_ok = true) :
    (strOccurs "http" l = true →
      final_link (some l) = "=HYPERLINK(\"" ++ l ++ "\", \"名片連結\")") ∧
    (strOccurs "http" l = false → final_link (some l) = "上傳失敗") ∧
    final_link none = "上傳失敗" ∧
    (∃ c : AppendCall, save_to_google_sheets env data note (some l) = some c ∧
      c.row.get? 11 = some (Cell.str (final_link (some l)))) := by
  refine ⟨?_, ?_, rfl, ?_⟩
  · intro h
    have hne : (l != "") = true := by
      rcases eq_or_ne l "" with rfl | hne
      · exact absurd h (by decide)
      · simp [hne]
    simp [final_link, hyperlink_formula, h, hne]
  · intro h
    simp [final_link, h]
  · refine ⟨AppendCall.mk
      [Cell.num (next_index env.existing_data),
       Cell.str (dictGet data "chinese_name" ""),
       Cell.str (dictGet data "english_name" ""),
       Cell.str (dictGet data "department" ""),
       Cell.str (dictGet data "title" ""),
       Cell.str (dictGet data "mobile" ""),
       Cell.str (dictGet data "phone" ""),
       Cell.str (dictGet data "email" ""),
       Cell.str (dictGet data "address" ""),
       Cell.str note,
       Cell.str env.upload_time,
       Cell.str (final_link (some l))]
      "USER_ENTERED", ?_, rfl⟩
    simp [save_to_google_sheets, hw]

/-- Witness for c6_link_cell on a reference containing http and one
without. -/
theorem c6_link_cell_witness :
    final_link (some "https://drive.example/abc") =
      "=HYPERLINK(\"" ++ "https://drive.example/abc" ++ "\", \"名片連結\")" ∧
    final_link (some "broken") = "上傳失敗" ∧
    final_link none = "上傳失敗" ∧
    (∃ c : AppendCall,
      save_to_google_sheets (SheetsEnv.mk [] "t" true) [] "n"
        (some "https://drive.example/abc") = some c ∧
      c.row.get? 11 =
        some (Cell.str (final_link (some "https://drive.example/abc")))) :=
  ⟨(c6_link_cell "https://drive.example/abc" (SheetsEnv.mk [] "t" true) [] "n"
      rfl).1 (by decide),
   (c6_link_cell "broken" (SheetsEnv.mk [] "t" true) [] "n" rfl).2.1
     (by decide),
   rfl,
   (c6_link_cell "https://drive.example/abc" (SheetsEnv.mk [] "t" true) [] "n"
      rfl).2.2.2⟩

/-- Claim C9, implicit: the Ledger Client's row construction is total over
records missing any of the eight keys: the write succeeds regardless of
missing keys, and each of the eight field cells equals the record's value
when the key is present and the empty string when absent, the defaulting
being enforced at ledger-write time. -/
theorem c9_row_total_defaulting (env : SheetsEnv) (data : CardDict)
    (note : String) (drive_link : Option String) (hw : env.write_ok = true) :
    (save_to_google_sheets env data note drive_link).isSome = true ∧
    (∀ k : String, data.lookup k = none → dictGet data k "" = "") ∧
    (∀ (k v : String), data.lookup k = some v → dictGet data k "" = v) ∧
    (∃ c : AppendCall, save_to_google_sheets env data note drive_link = some c ∧
      c.row.get? 1 = some (Cell.str (dictGet data "chinese_name" "")) ∧
      c.row.get? 2 = some (Cell.str (dictGet data "english_name" "")) ∧
      c.row.get? 3 = some (Cell.str (dictGet data "department" "")) ∧
      c.row.get? 4 = some (Cell.str (dictGet data "title" "")) ∧
      c.row.get? 5 = some (Cell.str (dictGet data "mobile" "")) ∧
      c.row.get? 6 = some (Cell.str (dictGet data "phone" "")) ∧
      c.row.get? 7 = some (Cell.str (dictGet data "email" "")) ∧
      c.row.get? 8 = some (Cell.str (dictGet data "address" ""))) := by
  refine ⟨by simp [save_to_google_sheets, hw], ?_, ?_, ?_⟩
  · intro k hk
    simp [dictGet, hk]
  · intro k v hk
    simp [dictGet, hk]
  · refine ⟨AppendCall.mk
      [Cell.num (next_index env.existing_data),
       Cell.str (dictGet data "chinese_name" ""),
       Cell.str (dictGet data "english_name" ""),
       Cell.str (dictGet data "department" ""),
       Cell.str (dictGet data "title" ""),
       Cell.str (dictGet data "mobile" ""),
       Cell.str (dictGet data "phone" ""),
       Cell.str (dictGet data "email" ""),
       Cell.str (dictGet data "address" ""),
       Cell.str note,
       Cell.str env.upload_time,
       Cell.str (final_link drive_link)]
      "USER_ENTERED", ?_, rfl, rfl, rfl, rfl, rfl, rfl, rfl, rfl⟩
    simp [save_to_google_sheets, hw]

/-- Witness for c9_row_total_defaulting on a record holding only the title
key: the write succeeds and every other field cell defaults to empty. -/
theorem c9_row_total_defaulting_witness :
    (save_to_google_sheets (SheetsEnv.mk [] "t" true) [("title", "經理")] "n"
      none).isSome = true ∧
    dictGet [("title", "經理")] "email" "" = "" ∧
    dictGet [("title", "經理")] "title" "" = "經理" ∧
    (∃ c : AppendCall,
      save_to_google_sheets (SheetsEnv.mk [] "t" true) [("title", "經理")] "n"
        none = some c ∧
      c.row.get? 4 = some (Cell.str "經理") ∧
      c.row.get? 7 = some (Cell.str "")) := by
  have h := c9_row_total_defaulting (SheetsEnv.mk [] "t" true)
    [("title", "經理")] "n" none rfl
  refine ⟨h.1, h.2.1 "email" (by decide), h.2.2.1 "title" "經理" (by decide), ?_⟩
  obtain ⟨c, hc, _, _, _, h4, _, _, h7, _⟩ := h.2.2.2
  refine ⟨c, hc, ?_, ?_⟩
  · simpa [dictGet] using h4
  · simpa [dictGet] using h7

/-- Claim C10, implicit: for an extraction result equal to the empty JSON
object, a falsy value distinct from the quota sentinel, the handler
classifies the submission as extraction-failed and invokes neither the
Archive Client nor the Ledger Client, although the service call itself
succeeded and returned valid JSON. -/
theorem c10_falsy_result_extraction_failed (image_bytes : ImageBytes)
    (user_note : String) (env : Env)
    (hg : env.gemini = GeminiCallResult.success []) :
    get_gemini_response image_bytes env.gemini = ExtractionResult.record [] ∧
    ExtractionResult.record [] ≠ ExtractionResult.quotaExceeded ∧
    (submit (some image_bytes) user_note env).outcome =
      Outcome.extractionFailed ∧
    (submit (some image_bytes) user_note env).archive_called = false ∧
    (submit (some image_bytes) user_note env).ledger_called = false := by
  have hr : get_gemini_response image_bytes env.gemini =
      ExtractionResult.record [] := by
    rw [hg]
    rfl
  refine ⟨hr, by decide, ?_, ?_, ?_⟩ <;> simp [submit, hr]

/-- Witness for c10_falsy_result_extraction_failed on a concrete environment
whose extraction call parses to the empty object. -/
theorem c10_falsy_result_extraction_failed_witness :
    get_gemini_response [] (Env.mk (GeminiCallResult.success [])
      (DriveCallResult.uploaded (some "https://x")) "ts"
      (SheetsEnv.mk [] "t" true)).gemini = ExtractionResult.record [] ∧
    ExtractionResult.record [] ≠ ExtractionResult.quotaExceeded ∧
    (submit (some []) "n" (Env.mk (GeminiCallResult.success [])
      (DriveCallResult.uploaded (some "https://x")) "ts"
      (SheetsEnv.mk [] "t" true))).outcome = Outcome.extractionFailed ∧
    (submit (some []) "n" (Env.mk (GeminiCallResult.success [])
      (DriveCallResult.uploaded (some "https://x")) "ts"
      (SheetsEnv.mk [] "t" true))).archive_called = false ∧
    (submit (some []) "n" (Env.mk (GeminiCallResult.success [])
      (DriveCallResult.uploaded (some "https://x")) "ts"
      (SheetsEnv.mk [] "t" true))).ledger_called = false :=
  c10_falsy_result_extraction_failed [] "n"
    (Env.mk (GeminiCallResult.success [])
      (DriveCallResult.uploaded (some "https://x")) "ts"
      (SheetsEnv.mk [] "t" true)) rfl

/-- Claim C1 counterexample: with extraction succeeding and the Drive upload
raising, the handler stops (st.stop) before the ledger write: the Ledger
Client is not invoked and no row is appended, refuting the claim that the
ledger row is still written with the upload-failed marker. -/
theorem c1_counterexample :
    (submit (some [0]) "meet"
      (Env.mk (GeminiCallResult.success [("chinese_name", "王小明")])
        (DriveCallResult.error "insufficientPermissions") "20250101_120000"
        (SheetsEnv.mk [["h"]] "2025-01-01 12:00:00" true))).ledger_called =
      false ∧
    (submit (some [0]) "meet"
      (Env.mk (GeminiCallResult.success [("chinese_name", "王小明")])
        (DriveCallResult.error "insufficientPermissions") "20250101_120000"
        (SheetsEnv.mk [["h"]] "2025-01-01 12:00:00" true))).ledger_append =
      none ∧
    (submit (some [0]) "meet"
      (Env.mk (GeminiCallResult.success [("chinese_name", "王小明")])
        (DriveCallResult.error "insufficientPermissions") "20250101_120000"
        (SheetsEnv.mk [["h"]] "2025-01-01 12:00:00" true))).outcome =
      Outcome.archiveFailedStop :=
  ⟨rfl, rfl, rfl⟩

/-- Claim C1 amended: when the Archive Client returns absence the handler
aborts the submission before the ledger write, so the Ledger Client is never
invoked; the Ledger Client itself maps an absent reference to the literal
upload-failed marker, but that branch is unreachable from the handler. -/
theorem c1_archive_absence_aborts_submission (image_bytes : ImageBytes)
    (user_note : String) (env : Env) (d : CardDict)
    (hg : env.gemini = GeminiCallResult.success d) (hd : d ≠ [])
    (ha : upload_image_to_drive image_bytes (file_name_of d env.now_ts)
      env.drive = none) :
    (submit (some image_bytes) user_note env).ledger_called = false ∧
    (submit (some image_bytes) user_note env).ledger_append = none ∧
    (submit (some image_bytes) user_note env).outcome =
      Outcome.archiveFailedStop ∧
    final_link none = "上傳失敗" := by
  have hr : get_gemini_response image_bytes env.gemini =
      ExtractionResult.record d := by
    rw [hg]
    rfl
  cases d with
  | nil => exact absurd rfl hd
  | cons p ps =>
      refine ⟨?_, ?_, ?_, rfl⟩ <;> simp [submit, hr, ha, py_truthy_str]

/-- Witness for c1_archive_absence_aborts_submission: the create call
succeeds but carries no webViewLink, so the upload returns absence. -/
theorem c1_archive_absence_aborts_submission_witness :
    (submit (some [0]) "n"
      (Env.mk (GeminiCallResult.success [("chinese_name", "王小明")])
        (DriveCallResult.uploaded none) "20250101_120000"
        (SheetsEnv.mk [] "t" true))).ledger_called = false ∧
    (submit (some [0]) "n"
      (Env.mk (GeminiCallResult.success [("chinese_name", "王小明")])
        (DriveCallResult.uploaded none) "20250101_120000"
        (SheetsEnv.mk [] "t" true))).ledger_append = none ∧
    (submit (some [0]) "n"
      (Env.mk (GeminiCallResult.success [("chinese_name", "王小明")])
        (DriveCallResult.uploaded none) "20250101_120000"
        (SheetsEnv.mk [] "t" true))).outcome = Outcome.archiveFailedStop ∧
    final_link none = "上傳失敗" :=
  c1_archive_absence_aborts_submission [0] "n"
    (Env.mk (GeminiCallResult.success [("chinese_name", "王小明")])
      (DriveCallResult.uploaded none) "20250101_120000"
      (SheetsEnv.mk [] "t" true))
    [("chinese_name", "王小明")] rfl (by decide) rfl

/-- Claim C3 counterexample: the extraction call succeeds and the response
parses to a JSON object holding only the chinese_name key; the Extraction
Client returns it verbatim, with the email and english_name keys missing,
refuting the claim that all eight keys are always present. -/
theorem c3_counterexample :
    get_gemini_response []
      (GeminiCallResult.success [("chinese_name", "王小明")]) =
      ExtractionResult.record [("chinese_name", "王小明")] ∧
    ([("chinese_name", "王小明")] : CardDict).lookup "email" = none ∧
    ([("chinese_name", "王小明")] : CardDict).lookup "english_name" = none :=
  ⟨rfl, by decide, by decide⟩

/-- Claim C3 amended: the Extraction Client returns the parsed JSON object
verbatim, performing no normalization, so a successful result may miss any
of the eight keys; the empty-string defaulting happens only later, in the
Ledger Client's row construction. -/
theorem c3_extraction_returns_parsed_verbatim (image_bytes : ImageBytes)
    (d : CardDict) :
    get_gemini_response image_bytes (GeminiCallResult.success d) =
      ExtractionResult.record d := rfl

/-- Claim C8 counterexample: a record whose chinese_name key is present with
the empty-string value yields a file name with no placeholder in it,
refuting the claim that the placeholder appears whenever the name is the
empty string. -/
theorem c8_counterexample :
    ([("chinese_name", "")] : CardDict).lookup "chinese_name" = some "" ∧
    file_name_of [("chinese_name", "")] "20250101_120000" =
      "名片__20250101_120000.jpg" ∧
    strOccurs "未命名" (file_name_of [("chinese_name", "")] "20250101_120000") =
      false :=
  ⟨by decide, by decide, by decide⟩

/-- Claim C8 amended: the generated archive file name is the fixed prefix,
then the extracted Chinese name, then the timestamp suffix; the placeholder
is substituted only when the chinese_name key is absent from the record,
while a present value, even the empty string, is used verbatim. -/
theorem c8_placeholder_only_when_key_absent (d : CardDict) (ts : String) :
    (d.lookup "chinese_name" = none →
      file_name_of d ts = "名片_" ++ "未命名" ++ "_" ++ ts ++ ".jpg") ∧
    (∀ v : String, d.lookup "chinese_name" = some v →
      file_name_of d ts = "名片_" ++ v ++ "_" ++ ts ++ ".jpg") := by
  constructor
  · intro h
    simp [file_name_of, dictGet, h]
  · intro v h
    simp [file_name_of, dictGet, h]

/-- Witness for c8_placeholder_only_when_key_absent on an absent key and on
a present name. -/
theorem c8_placeholder_only_when_key_absent_witness :
    file_name_of ([] : CardDict) "20250101_120000" =
      "名片_" ++ "未命名" ++ "_" ++ "20250101_120000" ++ ".jpg" ∧
    file_name_of [("chinese_name", "王小明")] "20250101_120000" =
      "名片_" ++ "王小明" ++ "_" ++ "20250101_120000" ++ ".jpg" :=
  ⟨(c8_placeholder_only_when_key_absent [] "20250101_120000").1 rfl,
   (c8_placeholder_only_when_key_absent [("chinese_name", "王小明")]
      "20250101_120000").2 "王小明" (by decide)⟩
